import Mathlib

/-!
# Verification of the ScolioAI front-end core logic

Shallow embedding of the non-view logic of `src/index.tsx` (the current
app variant, lines 343-1119 of the concatenated file): the image
preparer (`compressImage`), the credential resolver (`getEnvConfig` and
the key-resolution steps of `handleAnalyze`), the save-key operation
(`handleSaveApiKey`), the result interpreter (`getResultCardClassName`,
`getResultContent`), the history store (`saveToHistory` and the startup
load effect), the angle renderers of the result card and the history
modal, and the error classification of the `handleAnalyze` catch block.

JavaScript numbers appearing in the image-size computation are embedded
as binary64 (IEEE 754 double) values: `F64` represents a nonnegative
double as an integer significand times a power of two, and each source
arithmetic operation (the division `1024/width`, the following
multiplication, and the truncating canvas assignment) is modelled with
its round-to-nearest-even rounding, since the double roundings are
observable in the output pixel dimensions.  JavaScript strings are
embedded as Lean `String`, with `""` playing the role of the falsy
empty string.
-/

/- ## Image Preparer (`compressImage`, src/index.tsx lines 418-461) -/

/-- Fuel-driven floor-log2 helper: `natLog2F f n` halves `n` until it
reaches 1, counting the steps; `f` bounds the recursion depth. -/
def natLog2F : ℕ → ℕ → ℕ
  | 0, _ => 0
  | f+1, n => if n ≤ 1 then 0 else natLog2F f (n / 2) + 1

/-- `⌊log₂ n⌋` for `n ≥ 1` (with `n` itself as ample fuel). -/
def natLog2 (n : ℕ) : ℕ := natLog2F n n

/-- A nonnegative binary64 (IEEE 754 double) value `m · 2^e`.  Only the
normal range is modelled; every value arising in the image-size
computation (ratios `1024/w` and scaled dimensions for decodable image
sizes) lies far inside it. -/
structure F64 where
  m : ℕ
  e : ℤ
deriving DecidableEq

/-- Round the exact fraction `n / d` (with `d > 0`, and `n / d` either 0
or at least `2⁻⁶⁴`) to the nearest binary64 value, ties to even — the
IEEE 754 default rounding used by JavaScript arithmetic.  The exponent
is chosen so the significand `N / D` lies in `[2⁵², 2⁵³)`; the
significand is rounded to an integer with ties to even. -/
def f64ofFrac (n d : ℕ) : F64 :=
  if n = 0 then ⟨0, 0⟩ else
  let e : ℤ := (natLog2 ((n * 2 ^ 64) / d) : ℤ) - 64 - 52
  let N : ℕ := if 0 ≤ e then n else n * 2 ^ ((-e).toNat)
  let D : ℕ := if 0 ≤ e then d * 2 ^ (e.toNat) else d
  let m : ℕ := N / D
  let r2 : ℕ := 2 * (N % D)
  let m' : ℕ :=
    if D < r2 then m + 1
    else if r2 < D then m
    else (if m % 2 = 0 then m else m + 1)
  ⟨m', e⟩

/-- JavaScript multiplication of the exact integer `k` (image dimensions
are integers below `2⁵³`, hence exact doubles) by the double `x`: the
exact product `k · x.m · 2^x.e` rounded to the nearest double. -/
def f64mulNat (k : ℕ) (x : F64) : F64 :=
  if 0 ≤ x.e then f64ofFrac (k * x.m * 2 ^ x.e.toNat) 1
  else f64ofFrac (k * x.m) (2 ^ (-x.e).toNat)

/-- Assignment of a nonnegative double to `canvas.width` /
`canvas.height` (lines 445-446): the WebIDL `unsigned long` conversion
truncates the fractional part toward zero. -/
def F64.trunc (x : F64) : ℕ :=
  if 0 ≤ x.e then x.m * 2 ^ x.e.toNat else x.m / 2 ^ (-x.e).toNat

/-- The `MAX_WIDTH` constant of `compressImage` (line 429). -/
def MAX_WIDTH : ℕ := 1024

/-- The `MAX_HEIGHT` constant of `compressImage` (line 430). -/
def MAX_HEIGHT : ℕ := 1024

/-- The output pixel dimensions of `compressImage` (lines 425-446).
When `width > height && width > MAX_WIDTH` the code computes
`height *= MAX_WIDTH / width; width = MAX_WIDTH` — a binary64 division
followed by a binary64 multiplication, each rounded to nearest — and
assigns the results to the canvas, which truncates; symmetrically in the
`else` branch (which also covers `width = height`).  Dimension
comparisons on integers below `2⁵³` are exact in binary64. -/
def compressImageDims (w h : ℕ) : ℕ × ℕ :=
  if w > h then
    if w > MAX_WIDTH then
      (MAX_WIDTH, (f64mulNat h (f64ofFrac MAX_WIDTH w)).trunc)
    else (w, h)
  else
    if h > MAX_HEIGHT then
      ((f64mulNat w (f64ofFrac MAX_HEIGHT h)).trunc, MAX_HEIGHT)
    else (w, h)

/-- JavaScript's `Math.round` (round half toward positive infinity), as
used by the specification's phrase `round(originalHeight × 1024/originalWidth)`.
This is a spec-side definition used only to compare the specified
rounding with the code's behavior. -/
def jsRound (q : ℚ) : ℤ := ⌊q + 1 / 2⌋

/-- C2: an image whose dimensions are both within the 1024 × 1024 bound
is passed through unchanged by the image preparer: no upscaling (the
pass-through branches perform no arithmetic at all). -/
theorem compressImage_no_upscale (w h : ℕ) (hw : w ≤ 1024) (hh : h ≤ 1024) :
    compressImageDims w h = (w, h) := by
  unfold compressImageDims
  simp only [MAX_WIDTH, MAX_HEIGHT]
  split_ifs with h1 h2 h3
  · omega
  · rfl
  · omega
  · rfl

/-- Witness for C2 at the concrete in-bounds image 800 × 600. -/
theorem compressImage_no_upscale_witness :
    compressImageDims 800 600 = (800, 600) :=
  compressImage_no_upscale 800 600 (by decide) (by decide)

/-- C1 counterexample: for a decoded 2048 × 1023 image (width ≥ height,
width > 1024) the binary64 arithmetic is exact (1024/2048 = 0.5,
1023 · 0.5 = 511.5) and the canvas truncates to 511, while the claim
demands `round(1023 × 1024/2048) = round(511.5) = 512`. -/
theorem compressImage_round_claim_false :
    ¬ ((((compressImageDims 2048 1023).2 : ℕ) : ℤ) =
        jsRound ((1023 : ℚ) * 1024 / 2048)) := by
  have h1 : compressImageDims 2048 1023 = (1024, 511) := by decide
  have h2 : jsRound ((1023 : ℚ) * 1024 / 2048) = 512 := by
    unfold jsRound
    rw [Int.floor_eq_iff]
    norm_num
  rw [h1, h2]
  decide

/-- C1 (amended): when `width > height` and `width > 1024` the output
width is exactly 1024 and the output height is the truncation of the
binary64 evaluation of `height · (1024/width)`; when `height ≥ width`
and `height > 1024` the output height is exactly 1024 and the width is
the corresponding truncated binary64 product.  This truncated binary64
value does not in general agree with `round` — nor even with the exact
real product: at 1122 × 561 the exact scaled height is exactly 512 but
the code produces 511 (the double product is 511.99999999999994), and at
the square 1122 × 1122 the output width is 1023, not 1024. -/
theorem compressImage_downscale_dims :
    (∀ w h : ℕ, h < w → 1024 < w →
      compressImageDims w h = (1024, (f64mulNat h (f64ofFrac 1024 w)).trunc)) ∧
    (∀ w h : ℕ, w ≤ h → 1024 < h →
      compressImageDims w h = ((f64mulNat w (f64ofFrac 1024 h)).trunc, 1024)) ∧
    compressImageDims 1122 561 = (1024, 511) ∧
    ⌊(561 : ℚ) * 1024 / 1122⌋ = 512 ∧
    compressImageDims 1122 1122 = (1023, 1024) := by
  refine ⟨?_, ?_, by decide, ?_, by decide⟩
  · intro w h hlt hgt
    unfold compressImageDims
    simp only [MAX_WIDTH]
    rw [if_pos hlt, if_pos hgt]
  · intro w h hle hgt
    unfold compressImageDims
    simp only [MAX_WIDTH, MAX_HEIGHT]
    rw [if_neg (not_lt.mpr hle), if_pos hgt]
  · rw [Int.floor_eq_iff]
    norm_num

/-- Witness for C1 (amended): a 2048 × 1024 landscape image and a
1000 × 4096 portrait image, each with the long side capped at 1024 and
the short side given by the truncated binary64 product. -/
theorem compressImage_downscale_dims_witness :
    compressImageDims 2048 1024 =
      (1024, (f64mulNat 1024 (f64ofFrac 1024 2048)).trunc) ∧
    compressImageDims 1000 4096 =
      ((f64mulNat 1000 (f64ofFrac 1024 4096)).trunc, 1024) :=
  ⟨compressImage_downscale_dims.1 2048 1024 (by decide) (by decide),
   compressImage_downscale_dims.2.1 1000 4096 (by decide) (by decide)⟩

/- ## JavaScript string primitives used by the embedded code -/

/-- Embedding of `String.prototype.toLowerCase` as used on the
classification and error strings (all comparisons in the source are
against ASCII literals). -/
def jsToLower (s : String) : String := String.mk (s.data.map Char.toLower)

/-- Embedding of `String.prototype.includes(sub)`: `sub` occurs as a
contiguous substring of `s`. -/
def jsIncludes (s sub : String) : Bool := decide (sub.data <:+: s.data)

/-- Embedding of `String.prototype.trim`: strip whitespace from both
ends. -/
def jsTrim (s : String) : String :=
  String.mk (((s.data.dropWhile Char.isWhitespace).reverse.dropWhile
    Char.isWhitespace).reverse)

/- ## Data model (src/index.tsx lines 358-367) -/

/-- The parsed model response (`AnalysisResult`, lines 359-363). -/
structure AnalysisResult where
  cobbAngle : ℚ
  classification : String
deriving DecidableEq

/-- A stored history record (`HistoryItem`, lines 365-367). -/
structure HistoryItem where
  cobbAngle : ℚ
  classification : String
  date : String
  timestamp : ℕ
deriving DecidableEq

/- ## Credential Resolver (`getEnvConfig` lines 372-415, `handleAnalyze`
     lines 855-865, `handleSaveApiKey` lines 804-815) -/

/-- The environment variables recognized as aliases of the AI API key.
A missing variable is the empty (falsy) string. -/
structure EnvVars where
  VITE_API_KEY : String
  REACT_APP_API_KEY : String
  NEXT_PUBLIC_API_KEY : String
  API_KEY : String
deriving DecidableEq

/-- JavaScript `||` on strings: the left operand unless it is falsy. -/
def jsOrStr (a b : String) : String := if a = "" then b else a

/-- The `apiKey` component of `getEnvConfig` (lines 373-395): first the
Vite alias, then the `process.env` aliases chained with `||`. -/
def getEnvConfigApiKey (env : EnvVars) : String :=
  let apiKey := if env.VITE_API_KEY ≠ "" then env.VITE_API_KEY else ""
  if apiKey = "" then
    jsOrStr env.REACT_APP_API_KEY
      (jsOrStr env.NEXT_PUBLIC_API_KEY (jsOrStr env.API_KEY ""))
  else apiKey

/-- The mutable on-device state relevant to credentials: the in-memory
`manualApiKey` React state, the `gemini_api_key` localStorage slot, the
settings-modal flag, and the error message. -/
structure AppState where
  manualApiKey : String
  storedApiKey : Option String
  settingsModalOpen : Bool
  errorMsg : String
deriving DecidableEq

/-- The key-resolution steps of `handleAnalyze` (lines 855-859):
environment key first, then the in-memory user key, then the
localStorage slot (with `|| ''` for a missing value). -/
def resolveApiKey (env : EnvVars) (st : AppState) : String :=
  let k1 := getEnvConfigApiKey env
  let k2 := if k1 = "" then st.manualApiKey else k1
  if k2 = "" then st.storedApiKey.getD "" else k2

/-- The error message shown when no key resolves (line 863). -/
def credentialsMissingMsg : String := "API Key가 필요합니다. 설정창에서 입력해주세요."

/-- Outcome of the credential gate at the start of `handleAnalyze`. -/
inductive AnalyzeGate where
  | blocked (settingsOpened : Bool) (msg : String)
  | proceed (apiKey : String)
deriving DecidableEq

/-- Lines 861-865: with no resolvable key the analysis is blocked, the
settings modal is opened and the missing-credentials message is set;
otherwise the call proceeds with the resolved key. -/
def credentialGate (env : EnvVars) (st : AppState) : AnalyzeGate :=
  let apiKey := resolveApiKey env st
  if apiKey = "" then AnalyzeGate.blocked true credentialsMissingMsg
  else AnalyzeGate.proceed apiKey

/-- `handleSaveApiKey` (lines 804-815): trim the candidate; persist it
(to localStorage and the in-memory key, closing the settings modal and
clearing the error) when the trimmed length exceeds 10, else reject,
leaving the state unchanged.  The boolean reports acceptance. -/
def handleSaveApiKey (key : String) (st : AppState) : AppState × Bool :=
  let trimmedKey := jsTrim key
  if trimmedKey.length > 10 then
    ({ st with manualApiKey := trimmedKey, storedApiKey := some trimmedKey,
               settingsModalOpen := false, errorMsg := "" }, true)
  else (st, false)

/-- C4: credential resolution takes the first non-empty key in order
environment (any recognized alias), then user-saved; with no key at all
the analysis is blocked with the missing-credentials message and the
settings panel is opened. -/
theorem credential_resolution_order :
    (∀ env : EnvVars, getEnvConfigApiKey env = "" ↔
      (env.VITE_API_KEY = "" ∧ env.REACT_APP_API_KEY = "" ∧
       env.NEXT_PUBLIC_API_KEY = "" ∧ env.API_KEY = "")) ∧
    (∀ env st, getEnvConfigApiKey env ≠ "" →
      resolveApiKey env st = getEnvConfigApiKey env ∧
      credentialGate env st = AnalyzeGate.proceed (getEnvConfigApiKey env)) ∧
    (∀ env st, getEnvConfigApiKey env = "" → st.manualApiKey ≠ "" →
      resolveApiKey env st = st.manualApiKey) ∧
    (∀ env st k, getEnvConfigApiKey env = "" → st.manualApiKey = "" →
      st.storedApiKey = some k → resolveApiKey env st = k) ∧
    (∀ env st, resolveApiKey env st = "" →
      credentialGate env st = AnalyzeGate.blocked true credentialsMissingMsg) := by
  refine ⟨?_, ?_, ?_, ?_, ?_⟩
  · intro env
    unfold getEnvConfigApiKey jsOrStr
    split_ifs <;> simp_all
  · intro env st henv
    unfold credentialGate resolveApiKey
    simp [henv]
  · intro env st henv hm
    unfold resolveApiKey
    simp [henv, hm]
  · intro env st k henv hm hs
    unfold resolveApiKey
    simp [henv, hm, hs]
  · intro env st hres
    unfold credentialGate
    simp [hres]

/-- Witness for C4: only a user key resolves to it; both present, the
environment key wins; nothing present blocks and opens settings. -/
theorem credential_resolution_order_witness :
    resolveApiKey ⟨"", "", "", ""⟩ ⟨"user-saved-key", none, false, ""⟩ =
      "user-saved-key" ∧
    resolveApiKey ⟨"env-key", "", "", ""⟩ ⟨"user-saved-key", none, false, ""⟩ =
      "env-key" ∧
    credentialGate ⟨"", "", "", ""⟩ ⟨"", none, false, ""⟩ =
      AnalyzeGate.blocked true credentialsMissingMsg := by
  refine ⟨?_, ?_, ?_⟩
  · exact credential_resolution_order.2.2.1 _ _ (by decide) (by decide)
  · have h := (credential_resolution_order.2.1 ⟨"env-key", "", "", ""⟩
      ⟨"user-saved-key", none, false, ""⟩ (by decide)).1
    rw [h]
    decide
  · exact credential_resolution_order.2.2.2.2 _ _ (by decide)

/-- C5: the save-key operation rejects every candidate whose trimmed
length is at most 10, leaving the state unchanged; a candidate with
trimmed length above 10 is trimmed, persisted (overwriting the previous
value), reported accepted, and immediately visible to `resolve()`. -/
theorem saveApiKey_validation :
    (∀ key st, (jsTrim key).length ≤ 10 → handleSaveApiKey key st = (st, false)) ∧
    (∀ key st, 10 < (jsTrim key).length →
      (handleSaveApiKey key st).1.storedApiKey = some (jsTrim key) ∧
      (handleSaveApiKey key st).1.manualApiKey = jsTrim key ∧
      (handleSaveApiKey key st).2 = true ∧
      (∀ env, getEnvConfigApiKey env = "" →
        resolveApiKey env (handleSaveApiKey key st).1 = jsTrim key)) := by
  constructor
  · intro key st hlen
    unfold handleSaveApiKey
    simp [Nat.not_lt.mpr hlen]
  · intro key st hlen
    have hne : jsTrim key ≠ "" := by
      intro h
      rw [h] at hlen
      simp [String.length] at hlen
    unfold handleSaveApiKey
    simp only [if_pos hlen]
    refine ⟨trivial, trivial, trivial, ?_⟩
    intro env henv
    unfold resolveApiKey
    simp [henv, hne]

/-- Witness for C5: `"short"` (5 ≤ 10 after trimming) is rejected with
the state untouched; `"AIzaSyTESTKEY1234"` (17 > 10) is persisted and
resolvable. -/
theorem saveApiKey_validation_witness :
    handleSaveApiKey "short" ⟨"old-key-value", some "old-key-value", true, "e"⟩ =
      (⟨"old-key-value", some "old-key-value", true, "e"⟩, false) ∧
    (handleSaveApiKey " AIzaSyTESTKEY1234 " ⟨"old-key-value", some "old-key-value", true, "e"⟩).1.storedApiKey =
      some "AIzaSyTESTKEY1234" ∧
    resolveApiKey ⟨"", "", "", ""⟩
      (handleSaveApiKey " AIzaSyTESTKEY1234 " ⟨"old-key-value", some "old-key-value", true, "e"⟩).1 =
      "AIzaSyTESTKEY1234" := by
  refine ⟨?_, ?_, ?_⟩
  · exact saveApiKey_validation.1 "short" _ (by decide)
  · have h := (saveApiKey_validation.2 " AIzaSyTESTKEY1234 " ⟨"old-key-value", some "old-key-value", true, "e"⟩ (by decide)).1
    rw [h]
    decide
  · have h := (saveApiKey_validation.2 " AIzaSyTESTKEY1234 " ⟨"old-key-value", some "old-key-value", true, "e"⟩ (by decide)).2.2.2 ⟨"", "", "", ""⟩ (by decide)
    rw [h]
    decide

/- ## Result Interpreter (`getResultCardClassName` lines 946-954,
     `getResultContent` lines 981-989) -/

/-- `getResultCardClassName` (lines 946-954): severity CSS class from
the lowercased classification; unrecognized values yield the empty class
(no severity styling).  `inconclusive` is styled as `high-risk`. -/
def getResultCardClassName (classification : String) : String :=
  if jsToLower classification = "normal" then "normal"
  else if jsToLower classification = "mild" then "mild"
  else if jsToLower classification = "high-risk" then "high-risk"
  else if jsToLower classification = "inconclusive" then "high-risk"
  else ""

/-- The neutral explanatory text of the default branch (line 987). -/
def neutralResultText : String := "분석 결과를 확인하세요."

/-- `getResultContent` (lines 981-989): explanatory text (the inner text
of the rendered paragraph) from the lowercased classification. -/
def getResultContent (classification : String) : String :=
  if jsToLower classification = "normal" then "척추가 정상 범위에 있습니다."
  else if jsToLower classification = "mild" then "경미한 척추측만증이 의심됩니다. 전문의와 상담을 권장합니다."
  else if jsToLower classification = "high-risk" then "척추측만증 고위험군으로 분류됩니다. 전문가의 진단이 필요합니다."
  else if jsToLower classification = "inconclusive" then "분석 실패: 사진이 명확하지 않습니다. 밝고 선명한 등 사진으로 다시 시도해주세요."
  else neutralResultText

/-- C6: the result interpreter is total and case-insensitive: its output
depends only on the lowercased classification, `"HIGH-RISK"` behaves as
`"High-Risk"` (danger tier), an unrecognized string such as `"foo"` gets
the neutral text and no severity class, and every input produces one of
the four enumerated severity classes. -/
theorem resultInterpreter_total_caseInsensitive :
    (∀ s t, jsToLower s = jsToLower t →
      getResultCardClassName s = getResultCardClassName t ∧
      getResultContent s = getResultContent t) ∧
    getResultCardClassName "HIGH-RISK" = getResultCardClassName "High-Risk" ∧
    getResultCardClassName "High-Risk" = "high-risk" ∧
    getResultContent "HIGH-RISK" = getResultContent "High-Risk" ∧
    getResultCardClassName "foo" = "" ∧
    getResultContent "foo" = neutralResultText ∧
    (∀ s, getResultCardClassName s = "normal" ∨ getResultCardClassName s = "mild" ∨
      getResultCardClassName s = "high-risk" ∨ getResultCardClassName s = "") := by
  refine ⟨?_, by decide, by decide, by decide, by decide, by decide, ?_⟩
  · intro s t h
    constructor
    · unfold getResultCardClassName
      rw [h]
    · unfold getResultContent
      rw [h]
  · intro s
    unfold getResultCardClassName
    split_ifs <;> simp

/-- Witness for C6 at the mixed-case pair `"HIGH-RISK"` / `"High-Risk"`. -/
theorem resultInterpreter_total_caseInsensitive_witness :
    getResultCardClassName "HIGH-RISK" = getResultCardClassName "High-Risk" ∧
    getResultContent "HIGH-RISK" = getResultContent "High-Risk" :=
  resultInterpreter_total_caseInsensitive.1 "HIGH-RISK" "High-Risk" (by decide)

/-- C10: a classification lowercasing to `"inconclusive"` is styled with
the same danger-tier class as `"High-Risk"`, not the neutral empty
class. -/
theorem inconclusive_styled_as_danger (s : String)
    (h : jsToLower s = "inconclusive") :
    getResultCardClassName s = getResultCardClassName "High-Risk" ∧
    getResultCardClassName s = "high-risk" ∧
    getResultCardClassName s ≠ "" := by
  unfold getResultCardClassName
  rw [h]
  refine ⟨by decide, by decide, by decide⟩

/-- Witness for C10 at the literal classification `"Inconclusive"`. -/
theorem inconclusive_styled_as_danger_witness :
    getResultCardClassName "Inconclusive" = getResultCardClassName "High-Risk" ∧
    getResultCardClassName "Inconclusive" = "high-risk" ∧
    getResultCardClassName "Inconclusive" ≠ "" :=
  inconclusive_styled_as_danger "Inconclusive" (by decide)

/- ## Angle rendering (result card line 1082, history modal line 605) -/

/-- What the angle slot renders: the `--` placeholder, a value formatted
with `toFixed(1)` (kept as tenths of a degree), or the raw value. -/
inductive AngleRender where
  | placeholder
  | fixed1 (tenths : ℤ)
  | raw (value : ℚ)
deriving DecidableEq

/-- The result card's angle (line 1082):
`result.cobbAngle === -1 ? '--' : result.cobbAngle.toFixed(1)`. -/
def renderResultAngle (a : ℚ) : AngleRender :=
  if a = -1 then AngleRender.placeholder else AngleRender.fixed1 (jsRound (a * 10))

/-- The history entry's angle (line 605):
`item.cobbAngle > -1 ? item.cobbAngle + "°" : '--'`. -/
def renderHistoryAngle (a : ℚ) : AngleRender :=
  if a > -1 then AngleRender.raw a else AngleRender.placeholder

/-- C3: under the model-output contract declared in the prompt (line
887: an inconclusive image yields `cobbAngle` `-1` together with
classification `Inconclusive`), every result classified `Inconclusive`
carries the sentinel `-1` and renders as the `--` placeholder — never a
numeric degree value — both in the result card and in a history entry. -/
theorem inconclusive_renders_placeholder (r : AnalysisResult)
    (hcontract : r.classification = "Inconclusive" → r.cobbAngle = -1)
    (hclass : r.classification = "Inconclusive") :
    r.cobbAngle = -1 ∧
    renderResultAngle r.cobbAngle = AngleRender.placeholder ∧
    renderHistoryAngle r.cobbAngle = AngleRender.placeholder := by
  have ha := hcontract hclass
  refine ⟨ha, ?_, ?_⟩
  · unfold renderResultAngle
    rw [if_pos ha]
  · unfold renderHistoryAngle
    rw [ha, if_neg (lt_irrefl (-1 : ℚ))]

/-- Witness for C3 at the sentinel result `{cobbAngle: -1,
classification: "Inconclusive"}`. -/
theorem inconclusive_renders_placeholder_witness :
    (AnalysisResult.mk (-1) "Inconclusive").cobbAngle = -1 ∧
    renderResultAngle (AnalysisResult.mk (-1) "Inconclusive").cobbAngle =
      AngleRender.placeholder ∧
    renderHistoryAngle (AnalysisResult.mk (-1) "Inconclusive").cobbAngle =
      AngleRender.placeholder :=
  inconclusive_renders_placeholder (AnalysisResult.mk (-1) "Inconclusive")
    (fun _ => rfl) rfl

/- ## History Store (`saveToHistory` lines 817-826, startup load
     lines 776-781) -/

/-- `saveToHistory` (lines 817-826): build a record from the result
stamped with the current date string and timestamp, prepend it, and use
the full updated sequence as both the new in-memory view and the value
written back to storage. -/
def saveToHistory (r : AnalysisResult) (date : String) (timestamp : ℕ)
    (history : List HistoryItem) : List HistoryItem :=
  { cobbAngle := r.cobbAngle, classification := r.classification,
    date := date, timestamp := timestamp } :: history

/-- C7: each append prepends exactly one record stamped with the given
date and timestamp and keeps the rest unchanged, and appending three
results to the empty history yields the three records most recent
first. -/
theorem saveToHistory_prepends :
    (∀ (hist : List HistoryItem) (r : AnalysisResult) (d : String) (ts : ℕ),
      (saveToHistory r d ts hist).length = hist.length + 1 ∧
      (saveToHistory r d ts hist).head? =
        some ⟨r.cobbAngle, r.classification, d, ts⟩ ∧
      (saveToHistory r d ts hist).tail = hist) ∧
    (∀ (r₁ r₂ r₃ : AnalysisResult) (d₁ d₂ d₃ : String) (t₁ t₂ t₃ : ℕ),
      saveToHistory r₃ d₃ t₃ (saveToHistory r₂ d₂ t₂ (saveToHistory r₁ d₁ t₁ [])) =
        [⟨r₃.cobbAngle, r₃.classification, d₃, t₃⟩,
         ⟨r₂.cobbAngle, r₂.classification, d₂, t₂⟩,
         ⟨r₁.cobbAngle, r₁.classification, d₁, t₁⟩]) := by
  constructor
  · intro hist r d ts
    exact ⟨rfl, rfl, rfl⟩
  · intro r₁ r₂ r₃ d₁ d₂ d₃ t₁ t₂ t₃
    rfl

/- ## History load at startup (lines 776-781) -/

/-- The startup history-load effect (lines 776-781): read the
`scolio_history` slot; a missing or falsy value leaves the history
empty; otherwise `JSON.parse` is attempted and a throwing parse is
swallowed by the empty catch, leaving the history empty and the error
message untouched (`""` at startup).  The external `JSON.parse` is
abstracted as a `parse` argument returning `none` when it throws.
Returns the resulting history together with the surfaced error text. -/
def loadHistory :
    Option String → (String → Option (List HistoryItem)) →
      List HistoryItem × String
  | none, _ => ([], "")
  | some s, parse =>
    if s = "" then ([], "")
    else match parse s with
      | some l => (l, "")
      | none => ([], "")

/-- C8: a stored value on which `JSON.parse` fails loads as the empty
history with no error surfaced; a missing value likewise loads as the
empty history. -/
theorem loadHistory_corrupt_empty
    (parse : String → Option (List HistoryItem)) (s : String)
    (hfail : parse s = none) :
    loadHistory (some s) parse = ([], "") ∧ loadHistory none parse = ([], "") := by
  constructor
  · simp only [loadHistory]
    split_ifs with h
    · rfl
    · rw [hfail]
  · rfl

/-- Witness for C8 with a concrete always-failing parse at the corrupt
blob `"not-json-corrupt"`. -/
theorem loadHistory_corrupt_empty_witness :
    loadHistory (some "not-json-corrupt") (fun _ => none) = ([], "") ∧
    loadHistory none (fun _ => none) = ([], "") :=
  loadHistory_corrupt_empty (fun _ => none) "not-json-corrupt" rfl

/- ## Analysis-error classification (`handleAnalyze` catch block,
     lines 910-930) -/

/-- The rate-limit message (line 917). -/
def rateLimitMsg : String :=
  "무료 사용량이 초과되었습니다. 설정(⚙️)에서 본인의 API Key를 등록하면 계속 사용할 수 있습니다."

/-- The auth-failure message (line 920). -/
def authFailMsg : String := "API Key 인증 실패. 설정창에서 키를 다시 확인해주세요."

/-- The bad-input message (line 923). -/
def badInputMsg : String := "이미지 오류: 다른 사진으로 시도해보세요."

/-- The content-policy message (line 925). -/
def contentPolicyMsg : String := "AI가 이미지를 분석할 수 없습니다. (콘텐츠 정책)"

/-- The generic transport-error message: the initial message (line 912)
with the network suffix appended (line 927). -/
def genericErrorMsg : String :=
  "분석 중 오류가 발생했습니다." ++ " 네트워크 상태를 확인해주세요."

/-- The catch block of `handleAnalyze` (lines 910-930): lowercase the
error's text and pick the first matching substring branch; the boolean
records whether the settings modal is opened (`setIsSettingsModalOpen(true)`
in the 429/quota and key/403/401 branches). -/
def classifyAnalysisError (e : String) : String × Bool :=
  if jsIncludes (jsToLower e) "429" || jsIncludes (jsToLower e) "quota" then
    (rateLimitMsg, true)
  else if jsIncludes (jsToLower e) "key" || jsIncludes (jsToLower e) "403" ||
      jsIncludes (jsToLower e) "401" then
    (authFailMsg, true)
  else if jsIncludes (jsToLower e) "400" then (badInputMsg, false)
  else if jsIncludes (jsToLower e) "safety" then (contentPolicyMsg, false)
  else (genericErrorMsg, false)

/-- C9: any error whose lowercased text contains `429` or `quota` yields
the rate-limit message with the settings panel signaled open — with
priority over the auth, bad-input and content-policy branches — and an
error matching none of the known substrings falls through to the generic
transport-error message without opening settings. -/
theorem analysisError_rateLimited_first :
    (∀ e, (jsIncludes (jsToLower e) "429" = true ∨
        jsIncludes (jsToLower e) "quota" = true) →
      classifyAnalysisError e = (rateLimitMsg, true)) ∧
    (∀ e, jsIncludes (jsToLower e) "429" = false →
      jsIncludes (jsToLower e) "quota" = false →
      jsIncludes (jsToLower e) "key" = false →
      jsIncludes (jsToLower e) "403" = false →
      jsIncludes (jsToLower e) "401" = false →
      jsIncludes (jsToLower e) "400" = false →
      jsIncludes (jsToLower e) "safety" = false →
      classifyAnalysisError e = (genericErrorMsg, false)) := by
  constructor
  · intro e h
    unfold classifyAnalysisError
    rcases h with h | h <;> simp [h]
  · intro e h1 h2 h3 h4 h5 h6 h7
    unfold classifyAnalysisError
    simp [h1, h2, h3, h4, h5, h6, h7]

/-- Witness for C9: a 429-style error that also mentions the key still
classifies as rate-limited (priority), and an unmatched network error
falls through to the generic message. -/
theorem analysisError_rateLimited_first_witness :
    classifyAnalysisError "Error: 429 RESOURCE_EXHAUSTED, check API key" =
      (rateLimitMsg, true) ∧
    classifyAnalysisError "TypeError: failed to fetch" =
      (genericErrorMsg, false) := by
  constructor
  · exact analysisError_rateLimited_first.1
      "Error: 429 RESOURCE_EXHAUSTED, check API key" (Or.inl (by decide))
  · exact analysisError_rateLimited_first.2 "TypeError: failed to fetch"
      (by decide) (by decide) (by decide) (by decide) (by decide) (by decide)
      (by decide)
